import Mathlib

/- Shallow embedding of the GR4J rainfall-runoff model engine from
`src/models/gr4j.rs` of the `hydro-models-rs` repository.

Floating-point (`f64`) arithmetic is idealized as real-number arithmetic:
`powf` becomes `Real.rpow`, `tanh` becomes `Real.tanh`, `f64::min`/`f64::max`
become `min`/`max` on `ℝ`.  Vectors (`Vec<f64>`) become `List ℝ`.  Rust's
indexed reads that would panic out of bounds are embedded with `List.getD`
(default `0`); the in-bounds discipline of `GR4JModel::run` is modelled
separately by the decidable predicate `stepInBounds`, which records exactly
the index accesses the `run` loop body performs. -/

namespace GR4J

noncomputable section

/-- Unit hydrograph ordinates helper for UH1 derived from S-curves
(`s_curves1` in `src/models/gr4j.rs`): `0` for `t ≤ 0`, `(t/x4)^2.5` for
`0 < t < x4`, and `1` otherwise, guards tested in source order. -/
def s_curves1 (t x4 : ℝ) : ℝ :=
  if t ≤ 0 then 0
  else if t < x4 then (t / x4) ^ (2.5 : ℝ)
  else 1

/-- Unit hydrograph ordinates helper for UH2 derived from S-curves
(`s_curves2` in `src/models/gr4j.rs`), guards tested in source order. -/
def s_curves2 (t x4 : ℝ) : ℝ :=
  if t ≤ 0 then 0
  else if t < x4 then 0.5 * (t / x4) ^ (2.5 : ℝ)
  else if t < 2 * x4 then 1 - 0.5 * (2 - t / x4) ^ (2.5 : ℝ)
  else 1

/-- The UH1 ordinate array built at the top of `GR4JModel::run`: for
`t in 1..=n_uh1` (`n_uh1 = x4.ceil()`), slot `t-1` receives
`s_curves1(t, x4) - s_curves1(t - 1, x4)`; re-indexed by `i = t - 1`. -/
def uh1Ordinates (x4 : ℝ) : List ℝ :=
  (List.range ⌈x4⌉₊).map fun i : ℕ =>
    s_curves1 ((i : ℝ) + 1) x4 - s_curves1 ((i : ℝ) + 1 - 1) x4

/-- The UH2 ordinate array built at the top of `GR4JModel::run`: for
`t in 1..=n_uh2` (`n_uh2 = (2*x4).ceil()`), slot `t-1` receives
`s_curves2(t, x4) - s_curves2(t - 1, x4)`. -/
def uh2Ordinates (x4 : ℝ) : List ℝ :=
  (List.range ⌈2 * x4⌉₊).map fun i : ℕ =>
    s_curves2 ((i : ℝ) + 1) x4 - s_curves2 ((i : ℝ) + 1 - 1) x4

/-- The four GR4J parameters (struct `GR4JParams` in `src/models/gr4j.rs`). -/
structure GR4JParams where
  x1 : ℝ
  x2 : ℝ
  x3 : ℝ
  x4 : ℝ

/-- Mutable engine state (struct `GR4JModel` in `src/models/gr4j.rs`). -/
structure GR4JModel where
  params : GR4JParams
  production_store : ℝ
  routing_store : ℝ
  uh1 : List ℝ
  uh2 : List ℝ

/-- Production-store phase of one timestep of `GR4JModel::run`
(lines 125–159 of `src/models/gr4j.rs`): from capacity `x1`, current store
`S`, rainfall `p` and evaporation `e`, returns the new `production_store`
and the `routing_pattern` handed to the convolution buffers. -/
def prodPhase (x1 S p e : ℝ) : ℝ × ℝ :=
  let branch : ℝ × ℝ × ℝ :=
    if p > e then
      let scaled_net_precip := min 13 ((p - e) / x1)
      let tanh_scaled_net_precip := Real.tanh scaled_net_precip
      let reservoir_production :=
        x1 * (1 - (S / x1) ^ (2 : ℝ)) * tanh_scaled_net_precip /
          (1 + S / x1 * tanh_scaled_net_precip)
      (0, reservoir_production, p - e - reservoir_production)
    else
      let scaled_net_evap := min 13 ((e - p) / x1)
      let tanh_scaled_net_evap := Real.tanh scaled_net_evap
      let ps_div_x1 := (2 - S / x1) * tanh_scaled_net_evap
      (S * ps_div_x1 / (1 + (1 - S / x1) * tanh_scaled_net_evap), 0, 0)
  let S1 := S - branch.1 + branch.2.1
  let percolation := S1 / (1 + (S1 / 2.25 / x1) ^ (4 : ℝ)) ^ (0.25 : ℝ)
  (percolation, branch.2.2 + (S1 - percolation))

/-- One iteration of the in-place convolution-buffer loop of
`GR4JModel::run`: `uh[i] = uh[i+1] + ordinates[i] * routing_pattern`. -/
def shiftStep (ord : List ℝ) (q : ℝ) (a : List ℝ) (i : ℕ) : List ℝ :=
  a.set i (a.getD (i + 1) 0 + ord.getD i 0 * q)

/-- In-place update of one convolution buffer in `GR4JModel::run`
(lines 161–168 resp. 170–177): the loop over `i in 0..(uh.len() - 1)`
followed by the guarded write of the last slot
(`*last_uh = *last_ordinate * routing_pattern`, performed only when both
the buffer and the ordinate array are non-empty). -/
def uhUpdate (ord : List ℝ) (q : ℝ) (uh : List ℝ) : List ℝ :=
  let u := (List.range (uh.length - 1)).foldl (shiftStep ord q) uh
  match u.getLast?, ord.getLast? with
  | some _, some o => u.set (u.length - 1) (o * q)
  | _, _ => u

/-- Routing-store phase of one timestep of `GR4JModel::run`
(lines 179–189): from `x2`, `x3`, the pre-update `routing_store` `R` and the
heads `u1 = uh1[0]`, `u2 = uh2[0]` of the freshly updated buffers, returns
the new `routing_store` and the emitted streamflow `q`. -/
def routingPhase (x2 x3 R u1 u2 : ℝ) : ℝ × ℝ :=
  let groundwater_exchange := x2 * (R / x3) ^ (3.5 : ℝ)
  let R1 := max 0 (R + u1 * 0.9 + groundwater_exchange)
  let r2 := R1 / (1 + (R1 / x3) ^ (4 : ℝ)) ^ (0.25 : ℝ)
  let qr := R1 - r2
  let qd := max 0 (u2 * 0.1 + groundwater_exchange)
  (r2, qr + qd)

/-- One full timestep of the `GR4JModel::run` loop body (lines 125–191),
given the precomputed ordinate arrays: production phase, both convolution
buffer updates, then the routing phase reading the updated buffer heads. -/
def step (ord1 ord2 : List ℝ) (m : GR4JModel) (p e : ℝ) : GR4JModel × ℝ :=
  let pr := prodPhase m.params.x1 m.production_store p e
  let uh1' := uhUpdate ord1 pr.2 m.uh1
  let uh2' := uhUpdate ord2 pr.2 m.uh2
  let rq := routingPhase m.params.x2 m.params.x3 m.routing_store
    (uh1'.getD 0 0) (uh2'.getD 0 0)
  ({ m with production_store := pr.1, routing_store := rq.1,
            uh1 := uh1', uh2 := uh2' }, rq.2)

/-- `GR4JModel::run` (lines 106–194): recomputes both ordinate arrays from
the current `x4`, then folds the timestep over `precip.iter().zip(pet)`,
appending one simulated flow per paired sample. -/
def run (m : GR4JModel) (precip potential_evap : List ℝ) :
    GR4JModel × List ℝ :=
  let ord1 := uh1Ordinates m.params.x4
  let ord2 := uh2Ordinates m.params.x4
  (precip.zip potential_evap).foldl
    (fun acc pe =>
      let r := step ord1 ord2 acc.1 pe.1 pe.2
      (r.1, acc.2 ++ [r.2]))
    (m, [])

/-- `GR4JModel::init` (lines 196–232): sets the four parameters (the
required map keys `X1`..`X4` are modelled as the four real arguments),
optionally overrides the two stores, resizes both buffers to the kernel
lengths derived from the new `x4` filled with zeroes, and then overwrites
either buffer wholesale with the optional `uh1`/`uh2` entries of the
`unit_hydrographs` map (modelled as an optional pair of optional lists). -/
def init (m : GR4JModel) (x1 x2 x3 x4 : ℝ)
    (production_store routing_store : Option ℝ)
    (unit_hydrographs : Option (Option (List ℝ) × Option (List ℝ))) :
    GR4JModel :=
  let ps := production_store.getD m.production_store
  let rs := routing_store.getD m.routing_store
  let base : GR4JModel :=
    { params := ⟨x1, x2, x3, x4⟩, production_store := ps, routing_store := rs,
      uh1 := List.replicate ⌈x4⌉₊ 0, uh2 := List.replicate ⌈2 * x4⌉₊ 0 }
  match unit_hydrographs with
  | none => base
  | some uh =>
    let m1 := match uh.1 with
      | none => base
      | some v => { base with uh1 := v }
    match uh.2 with
    | none => m1
    | some v => { m1 with uh2 := v }

end

/-- Index accesses performed by one iteration of the `GR4JModel::run` loop
body, on buffers of lengths `L1` (`uh1`) and `L2` (`uh2`) against ordinate
arrays of lengths `n1` and `n2`: the head reads `uh1[0]` / `uh2[0]`
(lines 182 and 188) and the ordinate reads `uh1_ordinates[i]` for
`i in 0..(L1-1)` and `uh2_ordinates[j]` for `j in 0..(L2-1)` (lines 161–172;
the companion reads `uh1[i+1]` / `uh2[j+1]` are then in bounds by
construction). -/
def stepInBounds (n1 n2 L1 L2 : ℕ) : Prop :=
  0 < L1 ∧ 0 < L2 ∧ (∀ i, i < L1 - 1 → i < n1) ∧ (∀ j, j < L2 - 1 → j < n2)

instance (n1 n2 L1 L2 : ℕ) : Decidable (stepInBounds n1 n2 L1 L2) := by
  unfold stepInBounds
  infer_instance

lemma s_curves1_zero (x4 : ℝ) : s_curves1 0 x4 = 0 := by
  unfold s_curves1
  simp

lemma s_curves2_zero (x4 : ℝ) : s_curves2 0 x4 = 0 := by
  unfold s_curves2
  simp

lemma s_curves1_of_ge {t x4 : ℝ} (h0 : 0 < t) (h : x4 ≤ t) :
    s_curves1 t x4 = 1 := by
  unfold s_curves1
  rw [if_neg (not_le.mpr h0), if_neg (not_lt.mpr h)]

lemma s_curves2_of_ge {t x4 : ℝ} (h0 : 0 < t)
    (h : 2 * x4 ≤ t) : s_curves2 t x4 = 1 := by
  unfold s_curves2
  rw [if_neg (not_le.mpr h0), if_neg (not_lt.mpr (by linarith)),
    if_neg (not_lt.mpr h)]

lemma uh1Ordinates_sum_aux (x4 : ℝ) : ∀ n : ℕ,
    ((List.range n).map fun i : ℕ =>
      s_curves1 ((i : ℝ) + 1) x4 - s_curves1 ((i : ℝ) + 1 - 1) x4).sum =
      s_curves1 (n : ℝ) x4 - s_curves1 0 x4
  | 0 => by simp
  | n + 1 => by
    rw [List.range_succ, List.map_append, List.sum_append,
      uh1Ordinates_sum_aux x4 n]
    push_cast
    simp only [List.map_cons, List.map_nil, List.sum_cons, List.sum_nil,
      add_sub_cancel_right]
    ring

lemma uh2Ordinates_sum_aux (x4 : ℝ) : ∀ n : ℕ,
    ((List.range n).map fun i : ℕ =>
      s_curves2 ((i : ℝ) + 1) x4 - s_curves2 ((i : ℝ) + 1 - 1) x4).sum =
      s_curves2 (n : ℝ) x4 - s_curves2 0 x4
  | 0 => by simp
  | n + 1 => by
    rw [List.range_succ, List.map_append, List.sum_append,
      uh2Ordinates_sum_aux x4 n]
    push_cast
    simp only [List.map_cons, List.map_nil, List.sum_cons, List.sum_nil,
      add_sub_cancel_right]
    ring

/-- C5 counterexample: the claim asserts, for every real `t` and `x4`, that
`s_curves1(t, x4) = 1` whenever `t ≥ x4`; at `t = 0`, `x4 = -1` we have
`t ≥ x4` yet the code returns `0` (the `t ≤ 0` guard fires first), so the
claim is false without a positivity restriction on `x4`. -/
theorem s_curves1_claim_fails_for_nonpos_x4 :
    (-1 : ℝ) ≤ (0 : ℝ) ∧ s_curves1 0 (-1) ≠ 1 := by
  constructor
  · norm_num
  · unfold s_curves1
    norm_num

/-- C5 (amended: restricted to `x4 > 0`, as §4.1 of the spec requires): for
every real `t` and every `x4 > 0`, `s_curves1` equals the three-piece
function of the claim — `1` for `t ≥ x4`, `0` for `t ≤ 0`,
`(t/x4)^2.5` in between — and `s_curves2` equals its four-piece function,
with the pieces genuinely non-overlapping (here tested in a different
order than the source), and both functions total in `t`. -/
theorem s_curves_piecewise (t x4 : ℝ) (hx4 : 0 < x4) :
    s_curves1 t x4 =
      (if x4 ≤ t then 1 else if t ≤ 0 then 0 else (t / x4) ^ (2.5 : ℝ)) ∧
    s_curves2 t x4 =
      (if 2 * x4 ≤ t then 1
       else if t ≤ 0 then 0
       else if t < x4 then 0.5 * (t / x4) ^ (2.5 : ℝ)
       else 1 - 0.5 * (2 - t / x4) ^ (2.5 : ℝ)) := by
  constructor
  · unfold s_curves1
    split_ifs <;> first | rfl | linarith
  · unfold s_curves2
    split_ifs <;> first | rfl | linarith

/-- Witness for the amended C5 at `t = 0`, `x4 = 1`. -/
theorem s_curves_piecewise_witness :
    (0 : ℝ) < 1 ∧
    (s_curves1 0 1 =
      (if (1 : ℝ) ≤ 0 then 1
       else if (0 : ℝ) ≤ 0 then 0 else ((0 : ℝ) / 1) ^ (2.5 : ℝ)) ∧
    s_curves2 0 1 =
      (if 2 * (1 : ℝ) ≤ 0 then 1
       else if (0 : ℝ) ≤ 0 then 0
       else if (0 : ℝ) < 1 then 0.5 * ((0 : ℝ) / 1) ^ (2.5 : ℝ)
       else 1 - 0.5 * (2 - (0 : ℝ) / 1) ^ (2.5 : ℝ))) :=
  ⟨zero_lt_one, s_curves_piecewise 0 1 zero_lt_one⟩

/-- C6: on every invocation of `GR4JModel::run` the ordinate arrays are
rebuilt from the current `x4` (the embedding `run` calls `uh1Ordinates` /
`uh2Ordinates` on `params.x4` directly); for `x4 > 0` they have lengths
`⌈x4⌉` and `⌈2·x4⌉`, both at least 1, and entry `i` (resp. `j`) is the
first difference of the corresponding S-curve at integer times. -/
theorem uhOrdinates_spec (x4 : ℝ) (hx4 : 0 < x4) (i j : ℕ)
    (hi : i < ⌈x4⌉₊) (hj : j < ⌈2 * x4⌉₊) :
    (uh1Ordinates x4).length = ⌈x4⌉₊ ∧
    (uh2Ordinates x4).length = ⌈2 * x4⌉₊ ∧
    1 ≤ ⌈x4⌉₊ ∧ 1 ≤ ⌈2 * x4⌉₊ ∧
    (uh1Ordinates x4).getD i 0 =
      s_curves1 ((i : ℝ) + 1) x4 - s_curves1 (i : ℝ) x4 ∧
    (uh2Ordinates x4).getD j 0 =
      s_curves2 ((j : ℝ) + 1) x4 - s_curves2 (j : ℝ) x4 := by
  refine ⟨by simp [uh1Ordinates], by simp [uh2Ordinates],
    Nat.one_le_ceil_iff.mpr hx4, Nat.one_le_ceil_iff.mpr (by linarith),
    ?_, ?_⟩
  · simp [uh1Ordinates, List.getD_eq_getElem?_getD, List.getElem?_map,
      List.getElem?_range hi]
  · simp [uh2Ordinates, List.getD_eq_getElem?_getD, List.getElem?_map,
      List.getElem?_range hj]

/-- Witness for C6 at `x4 = 1`, `i = j = 0`. -/
theorem uhOrdinates_spec_witness :
    ((0 : ℝ) < 1 ∧ 0 < ⌈(1 : ℝ)⌉₊ ∧ 0 < ⌈2 * (1 : ℝ)⌉₊) ∧
    ((uh1Ordinates 1).length = ⌈(1 : ℝ)⌉₊ ∧
    (uh2Ordinates 1).length = ⌈2 * (1 : ℝ)⌉₊ ∧
    1 ≤ ⌈(1 : ℝ)⌉₊ ∧ 1 ≤ ⌈2 * (1 : ℝ)⌉₊ ∧
    (uh1Ordinates 1).getD 0 0 =
      s_curves1 ((0 : ℕ) + 1 : ℝ) 1 - s_curves1 ((0 : ℕ) : ℝ) 1 ∧
    (uh2Ordinates 1).getD 0 0 =
      s_curves2 ((0 : ℕ) + 1 : ℝ) 1 - s_curves2 ((0 : ℕ) : ℝ) 1) :=
  ⟨⟨zero_lt_one, by norm_num, by norm_num⟩,
    uhOrdinates_spec 1 zero_lt_one 0 0 (by norm_num) (by norm_num)⟩

/-- C7: for every `x4 > 0` both derived ordinate sequences sum to exactly 1
in real arithmetic, by telescoping, since `s_curves1(⌈x4⌉, x4) = 1` and
`s_curves2(⌈2·x4⌉, x4) = 1` while both S-curves vanish at 0. -/
theorem uhOrdinates_sum_one (x4 : ℝ) (hx4 : 0 < x4) :
    (uh1Ordinates x4).sum = 1 ∧ (uh2Ordinates x4).sum = 1 := by
  have hc1 : (0 : ℝ) < (⌈x4⌉₊ : ℝ) := by
    exact_mod_cast Nat.ceil_pos.mpr hx4
  have hc2 : (0 : ℝ) < (⌈2 * x4⌉₊ : ℝ) := by
    exact_mod_cast Nat.ceil_pos.mpr (by linarith : (0 : ℝ) < 2 * x4)
  constructor
  · rw [uh1Ordinates, uh1Ordinates_sum_aux x4 ⌈x4⌉₊, s_curves1_zero,
      s_curves1_of_ge hc1 (Nat.le_ceil x4), sub_zero]
  · rw [uh2Ordinates, uh2Ordinates_sum_aux x4 ⌈2 * x4⌉₊, s_curves2_zero,
      s_curves2_of_ge hc2 (Nat.le_ceil (2 * x4)), sub_zero]

/-- Witness for C7 at `x4 = 1`. -/
theorem uhOrdinates_sum_one_witness :
    (0 : ℝ) < 1 ∧ ((uh1Ordinates 1).sum = 1 ∧ (uh2Ordinates 1).sum = 1) :=
  ⟨zero_lt_one, uhOrdinates_sum_one 1 zero_lt_one⟩

/-- C1: the production phase of one timestep computes exactly the formulas
of the claim: on net rain (`p > e`) the reservoir production with clamped
tanh, zero net evaporation and `routing_pattern` starting at
`p − e − reservoir_production`; otherwise the net-evaporation formula with
zero production and `routing_pattern` starting at 0; then
`S ← S − net_evap + reservoir_production`, percolation
`perc = S/(1 + (S/(2.25·x1))^4)^(1/4)` from the updated store,
`routing_pattern += S − perc`, and the store ends at `perc`.  (Stated for
all real parameters; in particular it holds for `x1 > 0`.) -/
theorem prodPhase_spec (x1 S p e : ℝ) :
    prodPhase x1 S p e =
      if p > e then
        let th := Real.tanh (min 13 ((p - e) / x1))
        let reservoir_production :=
          x1 * (1 - (S / x1) ^ (2 : ℝ)) * th / (1 + S / x1 * th)
        let S1 := S + reservoir_production
        let perc := S1 / (1 + (S1 / (2.25 * x1)) ^ (4 : ℝ)) ^ (0.25 : ℝ)
        (perc, p - e - reservoir_production + (S1 - perc))
      else
        let th := Real.tanh (min 13 ((e - p) / x1))
        let net_evap := S * (2 - S / x1) * th / (1 + (1 - S / x1) * th)
        let S1 := S - net_evap
        let perc := S1 / (1 + (S1 / (2.25 * x1)) ^ (4 : ℝ)) ^ (0.25 : ℝ)
        (perc, 0 + (S1 - perc)) := by
  simp only [prodPhase]
  split_ifs with h
  · simp only [sub_zero, div_div]
  · simp only [add_zero, mul_assoc, div_div]

/-- C3: in one full timestep, `groundwater_exchange` is computed once from
the pre-update `routing_store`; the store becomes
`max(0, R + uh1[0]·0.9 + groundwater_exchange)` (reading the head of the
freshly updated `uh1` buffer), then `r2` is its nonlinear outflow image,
the step's emitted flow is `qr + qd = (R1 − r2) + max(0, uh2[0]·0.1 +
groundwater_exchange)` — the same `groundwater_exchange` term added to both
branches — and the store ends the step at `r2`. -/
theorem step_routing_spec (ord1 ord2 : List ℝ) (m : GR4JModel) (p e : ℝ) :
    let q := (prodPhase m.params.x1 m.production_store p e).2
    let u1 := (uhUpdate ord1 q m.uh1).getD 0 0
    let u2 := (uhUpdate ord2 q m.uh2).getD 0 0
    let gw := m.params.x2 * (m.routing_store / m.params.x3) ^ (3.5 : ℝ)
    let R1 := max 0 (m.routing_store + u1 * 0.9 + gw)
    let r2 := R1 / (1 + (R1 / m.params.x3) ^ (4 : ℝ)) ^ (0.25 : ℝ)
    (step ord1 ord2 m p e).1.routing_store = r2 ∧
    (step ord1 ord2 m p e).2 = R1 - r2 + max 0 (u2 * 0.1 + gw) :=
  ⟨rfl, rfl⟩

/-- C8: for any parameters with `x3 > 0`, any state (even with a negative
routing store) and any inputs, the routing store after one timestep is
non-negative: the `max(0, ·)` clamp makes the intermediate store `R1`
non-negative and the outflow image `R1/(1 + (R1/x3)^4)^(1/4)` of a
non-negative `R1` is non-negative, so non-negativity is restored by every
step of `GR4JModel::run`. -/
theorem step_routing_store_nonneg (ord1 ord2 : List ℝ) (m : GR4JModel)
    (p e : ℝ) (hx3 : 0 < m.params.x3) :
    0 ≤ (step ord1 ord2 m p e).1.routing_store := by
  simp only [step, routingPhase]
  set q := (prodPhase m.params.x1 m.production_store p e).2 with hq
  set gw := m.params.x2 * (m.routing_store / m.params.x3) ^ (3.5 : ℝ)
    with hgw
  set R1 := max 0 (m.routing_store +
    (uhUpdate ord1 q m.uh1).getD 0 0 * 0.9 + gw) with hR1
  have hR1nn : 0 ≤ R1 := le_max_left 0 _
  have hbase : (0 : ℝ) ≤ (R1 / m.params.x3) ^ (4 : ℝ) :=
    Real.rpow_nonneg (div_nonneg hR1nn hx3.le) 4
  have hden : (0 : ℝ) < (1 + (R1 / m.params.x3) ^ (4 : ℝ)) ^ (0.25 : ℝ) :=
    Real.rpow_pos_of_pos (by linarith) 0.25
  exact div_nonneg hR1nn hden.le

/-- Witness for C8 at the default parameters, empty buffers, dry state and
one zero-rain zero-evaporation input. -/
theorem step_routing_store_nonneg_witness :
    0 < (GR4JModel.mk ⟨350, 0, 90, 1.7⟩ 0 0 [] []).params.x3 ∧
    0 ≤ (step [] [] (GR4JModel.mk ⟨350, 0, 90, 1.7⟩ 0 0 [] []) 0 0).1.routing_store :=
  ⟨by norm_num, step_routing_store_nonneg [] []
    (GR4JModel.mk ⟨350, 0, 90, 1.7⟩ 0 0 [] []) 0 0 (by norm_num)⟩

/-- C9: `GR4JModel::init` installs a supplied `uh1` (resp. `uh2`) override
exactly as given, whatever its length, so the effective buffer length
becomes the override's length; an absent key (or an absent map) leaves the
corresponding buffer zero-filled at the kernel length derived from the new
`x4`; and `init` is total in the override, so any override length is
accepted without error. -/
theorem init_spec (m : GR4JModel) (x1 x2 x3 x4 : ℝ)
    (production_store routing_store : Option ℝ)
    (unit_hydrographs : Option (Option (List ℝ) × Option (List ℝ))) :
    (init m x1 x2 x3 x4 production_store routing_store
        unit_hydrographs).uh1 =
      (unit_hydrographs.bind fun uh => uh.1).getD
        (List.replicate ⌈x4⌉₊ 0) ∧
    (init m x1 x2 x3 x4 production_store routing_store
        unit_hydrographs).uh2 =
      (unit_hydrographs.bind fun uh => uh.2).getD
        (List.replicate ⌈2 * x4⌉₊ 0) ∧
    (init m x1 x2 x3 x4 production_store routing_store
        unit_hydrographs).uh1.length =
      ((unit_hydrographs.bind fun uh => uh.1).map List.length).getD ⌈x4⌉₊ ∧
    (init m x1 x2 x3 x4 production_store routing_store
        unit_hydrographs).uh2.length =
      ((unit_hydrographs.bind fun uh => uh.2).map List.length).getD
        ⌈2 * x4⌉₊ := by
  rcases unit_hydrographs with _ | ⟨_ | u1, _ | u2⟩ <;>
    simp [init]

lemma foldl_shiftStep_length (ord : List ℝ) (q : ℝ) :
    ∀ (l : List ℕ) (a : List ℝ),
      (l.foldl (shiftStep ord q) a).length = a.length
  | [], _ => rfl
  | i :: l, a => by
    rw [List.foldl_cons, foldl_shiftStep_length ord q l]
    simp [shiftStep]

lemma shiftStep_getD (ord : List ℝ) (q : ℝ) (a : List ℝ) (k i : ℕ)
    (hk : k < a.length) :
    (shiftStep ord q a k).getD i 0 =
      if k = i then a.getD (k + 1) 0 + ord.getD k 0 * q
      else a.getD i 0 := by
  unfold shiftStep
  rw [List.getD_eq_getElem?_getD, List.getElem?_set]
  by_cases hki : k = i
  · rw [if_pos hki, if_pos hki, if_pos hk]
    rfl
  · rw [if_neg hki, if_neg hki, ← List.getD_eq_getElem?_getD]

lemma foldl_shiftStep_getD (ord : List ℝ) (q : ℝ) (uh : List ℝ) :
    ∀ m : ℕ, m ≤ uh.length → ∀ i : ℕ,
      ((List.range m).foldl (shiftStep ord q) uh).getD i 0 =
        if i < m then uh.getD (i + 1) 0 + ord.getD i 0 * q
        else uh.getD i 0
  | 0, _, i => by simp
  | m + 1, h, i => by
    have hlen : ((List.range m).foldl (shiftStep ord q) uh).length =
        uh.length := foldl_shiftStep_length ord q _ _
    have hIH := foldl_shiftStep_getD ord q uh m (by omega)
    rw [List.range_succ, List.foldl_append, List.foldl_cons, List.foldl_nil,
      shiftStep_getD ord q _ m i (by omega)]
    by_cases hmi : m = i
    · subst hmi
      rw [if_pos rfl, hIH (m + 1), if_neg (by omega), if_pos (by omega)]
    · rw [if_neg hmi, hIH i]
      by_cases hio : i < m
      · rw [if_pos hio, if_pos (by omega)]
      · rw [if_neg hio, if_neg (by omega)]

/-- C2: under the precondition that the buffer and its ordinate array have
the same length `n ≥ 1`, the in-place shift-and-accumulate update of
`GR4JModel::run` sends slot `i` to `old uh[i+1] + ord[i]·q` for
`i < n − 1` and slot `n − 1` to `ord[n−1]·q`; the buffer length is
preserved, so no other slot exists to be written.  The head `uh[0]` of the
updated buffer is the value `step` feeds to the routing phase (claim C3's
theorem states that use explicitly). -/
theorem uhUpdate_spec (ord uh : List ℝ) (q : ℝ)
    (hlen : uh.length = ord.length) (hpos : 1 ≤ uh.length) (i : ℕ)
    (hi : i < uh.length) :
    (uhUpdate ord q uh).length = uh.length ∧
    (uhUpdate ord q uh).getD i 0 =
      (if i + 1 < uh.length then uh.getD (i + 1) 0 + ord.getD i 0 * q
       else ord.getD i 0 * q) := by
  have hloopLen : ((List.range (uh.length - 1)).foldl (shiftStep ord q)
      uh).length = uh.length := foldl_shiftStep_length ord q _ _
  have hloop := foldl_shiftStep_getD ord q uh (uh.length - 1) (by omega)
  have hune : (List.range (uh.length - 1)).foldl (shiftStep ord q) uh
      ≠ [] := by
    intro hnil
    rw [hnil] at hloopLen
    simp only [List.length_nil] at hloopLen
    omega
  have horne : ord ≠ [] := by
    intro hnil
    rw [hnil] at hlen
    simp only [List.length_nil] at hlen
    omega
  have hov : ord.getLast horne = ord.getD (uh.length - 1) 0 := by
    rw [List.getD_eq_getElem?_getD, hlen, ← List.getLast?_eq_getElem?,
      List.getLast?_eq_getLast ord horne]
    rfl
  simp only [uhUpdate, List.getLast?_eq_getLast _ hune,
    List.getLast?_eq_getLast ord horne]
  constructor
  · rw [List.length_set, hloopLen]
  · rw [List.getD_eq_getElem?_getD, List.getElem?_set, hloopLen]
    by_cases hlast : i + 1 < uh.length
    · rw [if_neg (by omega), ← List.getD_eq_getElem?_getD, hloop i,
        if_pos (by omega), if_pos hlast]
    · have hieq : i = uh.length - 1 := by omega
      subst hieq
      rw [if_pos rfl, if_pos (by omega : uh.length - 1 < uh.length),
        if_neg hlast, Option.getD_some, hov]

/-- Witness for C2 with `uh = [1, 2]`, `ord = [3, 4]`, `q = 5`, `i = 1`. -/
theorem uhUpdate_spec_witness :
    ([(1 : ℝ), 2].length = [(3 : ℝ), 4].length ∧ 1 ≤ [(1 : ℝ), 2].length ∧
      1 < [(1 : ℝ), 2].length) ∧
    ((uhUpdate [(3 : ℝ), 4] 5 [(1 : ℝ), 2]).length = [(1 : ℝ), 2].length ∧
    (uhUpdate [(3 : ℝ), 4] 5 [(1 : ℝ), 2]).getD 1 0 =
      (if 1 + 1 < [(1 : ℝ), 2].length then
        [(1 : ℝ), 2].getD (1 + 1) 0 + [(3 : ℝ), 4].getD 1 0 * 5
       else [(3 : ℝ), 4].getD 1 0 * 5)) :=
  ⟨⟨rfl, by simp, by simp⟩,
    uhUpdate_spec [3, 4] [1, 2] 5 rfl (by simp) 1 (by simp)⟩

lemma run_fold_length (ord1 ord2 : List ℝ) :
    ∀ (l : List (ℝ × ℝ)) (st : GR4JModel × List ℝ),
      ((l.foldl (fun acc pe =>
          ((step ord1 ord2 acc.1 pe.1 pe.2).1,
            acc.2 ++ [(step ord1 ord2 acc.1 pe.1 pe.2).2])) st).2).length =
        st.2.length + l.length
  | [], st => by simp
  | pe :: l, st => by
    rw [List.foldl_cons, run_fold_length ord1 ord2 l]
    simp
    omega

/-- C4: `GR4JModel::run` silently zips the two input series: the output has
exactly `min (len precip) (len pet)` entries, and the whole result (final
state included) is unchanged when both inputs are truncated to that common
prefix, so elements beyond the shorter series have no effect; the embedding
is total, so no error is ever reported on a length mismatch. -/
theorem run_zip_spec (m : GR4JModel) (precip potential_evap : List ℝ) :
    (run m precip potential_evap).2.length =
      min precip.length potential_evap.length ∧
    run m precip potential_evap =
      run m (precip.take (min precip.length potential_evap.length))
        (potential_evap.take (min precip.length potential_evap.length)) := by
  have hzip : (precip.take (min precip.length potential_evap.length)).zip
      (potential_evap.take (min precip.length potential_evap.length)) =
      precip.zip potential_evap := by
    rw [List.zip_eq_zipWith, List.zip_eq_zipWith, ← List.take_zipWith,
      List.take_of_length_le (by rw [List.length_zipWith])]
  constructor
  · simp only [run]
    rw [run_fold_length]
    simp [List.length_zip]
  · simp only [run]
    rw [hzip]

lemma ball_lt_iff (k n : ℕ) : (∀ i, i < k → i < n) ↔ k ≤ n := by
  constructor
  · intro h
    by_contra hk
    push_neg at hk
    exact absurd (h n (by omega)) (by omega)
  · intro h i hi
    omega

/-- C10 counterexample: the claim asserts that a model whose `uh1` buffer
is longer than the derived kernel length goes out of bounds on every
non-empty input; but with `x4 = 1` (kernel lengths 1 and 2) a `uh1` buffer
of length 2 — one longer than the kernel — keeps every access of the
`run` loop body in bounds: the ordinate loop only reaches indices below
`len − 1 = 1 ≤ n1`, and the head reads are fine. -/
theorem run_access_claim_counterexample :
    (uh1Ordinates 1).length < 2 ∧
    stepInBounds (uh1Ordinates 1).length (uh2Ordinates 1).length 2 2 := by
  have h1 : (uh1Ordinates 1).length = 1 := by
    simp [uh1Ordinates, Nat.ceil_one]
  have h2 : (uh2Ordinates 1).length = 2 := by
    simp only [uh2Ordinates, List.length_map, List.length_range, mul_one]
    norm_num
  rw [h1, h2]
  unfold stepInBounds
  refine ⟨by omega, by omega, by omega, ?_, ?_⟩ <;>
    exact fun i hi => by omega

/-- C10 (amended: a buffer longer than its kernel length by exactly one
still keeps every access in bounds, so "longer" must read "longer by at
least two"): under the precondition that both buffer lengths equal the
derived kernel lengths (with `x4 > 0`), every access of the `run` loop
body is in bounds; and in general the accesses are in bounds exactly when
both buffers are non-empty and neither exceeds its ordinate-array length
by more than one. -/
theorem run_access_bounds (x4 : ℝ) (hx4 : 0 < x4) (L1 L2 : ℕ) :
    stepInBounds (uh1Ordinates x4).length (uh2Ordinates x4).length
      (uh1Ordinates x4).length (uh2Ordinates x4).length ∧
    (stepInBounds (uh1Ordinates x4).length (uh2Ordinates x4).length L1 L2 ↔
      0 < L1 ∧ 0 < L2 ∧ L1 ≤ (uh1Ordinates x4).length + 1 ∧
        L2 ≤ (uh2Ordinates x4).length + 1) := by
  have h1 : (uh1Ordinates x4).length = ⌈x4⌉₊ := by simp [uh1Ordinates]
  have h2 : (uh2Ordinates x4).length = ⌈2 * x4⌉₊ := by simp [uh2Ordinates]
  have hp1 : 0 < ⌈x4⌉₊ := Nat.ceil_pos.mpr hx4
  have hp2 : 0 < ⌈2 * x4⌉₊ := Nat.ceil_pos.mpr (by linarith)
  rw [h1, h2]
  unfold stepInBounds
  simp only [ball_lt_iff]
  omega

/-- Witness for the amended C10 at `x4 = 1`, `L1 = L2 = 2`. -/
theorem run_access_bounds_witness :
    (0 : ℝ) < 1 ∧
    (stepInBounds (uh1Ordinates 1).length (uh2Ordinates 1).length
       (uh1Ordinates 1).length (uh2Ordinates 1).length ∧
     (stepInBounds (uh1Ordinates 1).length (uh2Ordinates 1).length 2 2 ↔
       0 < 2 ∧ 0 < 2 ∧ 2 ≤ (uh1Ordinates 1).length + 1 ∧
         2 ≤ (uh2Ordinates 1).length + 1)) :=
  ⟨zero_lt_one, run_access_bounds 1 zero_lt_one 2 2⟩

end GR4J
